import Mathlib

/-!
Verification of the FinanceApp installment scheduler and monthly aggregator.

Shallow embedding of `backend/app/utils.py` (`calcular_datas_parcelas`),
`backend/app/routers/dashboard.py` (`get_dashboard_summary`,
`get_expenses_by_category`) and `backend/app/schemas.py`
(`DashboardSummary.variacao_percentual`).

Money convention: the source uses `Decimal` values with two fraction digits;
here every monetary amount is an integer number of cents (`ℤ`), so the
`Decimal` value `1.00` is the integer `100`, and the base-installment
computation `(valor_total / num_parcelas).quantize(Decimal("0.01"),
ROUND_HALF_UP)` becomes round-half-up of the exact rational `t / n` to
integer cents.
-/

namespace FinanceApp

/-- Payment status of an installment (`status_pagamento`). -/
inductive PaymentStatus where
  | pendente
  | pago
  | atrasado
deriving DecidableEq, Repr

/-- Transaction kind (`TransactionType` in `models.py` / `schemas.py`). -/
inductive TransactionType where
  | entrada
  | saida_debito
  | saida_credito
deriving DecidableEq, Repr

/-- A calendar date: year, month (1..12), day (1..days-in-month). -/
structure Date where
  year : Nat
  month : Nat
  day : Nat
deriving DecidableEq, Repr

/-- Gregorian leap-year rule (as in Python's `calendar`). -/
def isLeapYear (y : Nat) : Bool :=
  y % 4 == 0 && (y % 100 != 0 || y % 400 == 0)

/-- Number of days in month `m` of year `y`. -/
def daysInMonth (y m : Nat) : Nat :=
  if m == 2 then (if isLeapYear y then 29 else 28)
  else if m == 4 || m == 6 || m == 9 || m == 11 then 30
  else 31

/-- `d + relativedelta(months=i)`: calendar-month addition, keeping the day
of month and clamping it to the last valid day of the target month when the
target month is shorter. -/
def addMonths (d : Date) (i : Nat) : Date :=
  let m0 := d.month - 1 + i
  let y := d.year + m0 / 12
  let m := m0 % 12 + 1
  ⟨y, m, min d.day (daysInMonth y m)⟩

/-- Round the quotient `t / n` to a whole number of cents, ties away from
zero for positive values (`ROUND_HALF_UP`); both arguments are in cents and
are positive at every use site. -/
def roundHalfUp (t n : ℤ) : ℤ :=
  (2 * t + n) / (2 * n)

/-- One installment record as produced by `calcular_datas_parcelas`. -/
structure Parcela where
  numero_parcela : ℤ
  total_parcelas : ℤ
  valor_parcela : ℤ
  data_vencimento : Date
  status_pagamento : PaymentStatus
deriving DecidableEq, Repr

/-- The loop body of `calcular_datas_parcelas` (`utils.py`, lines 161-193):
base amount, remainder, and one record per `i ∈ range num_parcelas`. -/
def parcelasList (data_primeira_parcela : Date) (num_parcelas valor_total : ℤ) :
    List Parcela :=
  let valor_parcela_base := roundHalfUp valor_total num_parcelas
  let valor_total_calculado := valor_parcela_base * num_parcelas
  let diferenca := valor_total - valor_total_calculado
  (List.range num_parcelas.toNat).map fun (i : ℕ) =>
    { numero_parcela := (i : ℤ) + 1
      total_parcelas := num_parcelas
      valor_parcela :=
        if i = num_parcelas.toNat - 1 ∧ diferenca ≠ 0 then
          valor_parcela_base + diferenca
        else
          valor_parcela_base
      data_vencimento := addMonths data_primeira_parcela i
      status_pagamento := PaymentStatus.pendente }

/-- `calcular_datas_parcelas` (`utils.py`, lines 110-193): validation guards
followed by the installment list. `ValueError` is modelled as `Except.error`
with the source's message. -/
def calcular_datas_parcelas (data_primeira_parcela : Date)
    (num_parcelas valor_total : ℤ) : Except String (List Parcela) :=
  if num_parcelas < 1 then
    Except.error "Numero de parcelas deve ser pelo menos 1"
  else if num_parcelas > 48 then
    Except.error "Numero maximo de parcelas e 48"
  else if valor_total ≤ 0 then
    Except.error "Valor total deve ser positivo"
  else
    Except.ok (parcelasList data_primeira_parcela num_parcelas valor_total)

theorem calcular_eq_ok (d : Date) (n t : ℤ)
    (h1 : 1 ≤ n) (h2 : n ≤ 48) (h3 : 0 < t) :
    calcular_datas_parcelas d n t = Except.ok (parcelasList d n t) := by
  unfold calcular_datas_parcelas
  rw [if_neg (by omega), if_neg (by omega), if_neg (by omega)]

theorem calcular_ok_inv (d : Date) (n t : ℤ) (ps : List Parcela)
    (h : calcular_datas_parcelas d n t = Except.ok ps) :
    1 ≤ n ∧ n ≤ 48 ∧ 0 < t ∧ ps = parcelasList d n t := by
  unfold calcular_datas_parcelas at h
  split_ifs at h with h1 h2 h3
  all_goals cases h
  exact ⟨by omega, by omega, by omega, rfl⟩

theorem sum_range_map_const {f : ℕ → ℤ} {a : ℤ} :
    ∀ (k : ℕ), (∀ i < k, f i = a) → ((List.range k).map f).sum = k * a := by
  intro k
  induction k with
  | zero => intro _; simp
  | succ m ih =>
    intro h
    rw [List.range_succ, List.map_append, List.sum_append]
    rw [ih (fun i hi => h i (Nat.lt_succ_of_lt hi))]
    simp [h m (Nat.lt_succ_self m)]
    ring

theorem sum_range_succ_map (g : ℕ → ℤ) (k : ℕ) (a b : ℤ)
    (hlow : ∀ i < k, g i = a) (hlast : g k = b) :
    ((List.range (k + 1)).map g).sum = k * a + b := by
  rw [List.range_succ, List.map_append, List.sum_append,
    sum_range_map_const k hlow]
  simp [hlast]

theorem parcelasList_sum (d : Date) (n t : ℤ) (h1 : 1 ≤ n) :
    ((parcelasList d n t).map (·.valor_parcela)).sum = t := by
  obtain ⟨k, hk⟩ : ∃ k : ℕ, n.toNat = k + 1 := ⟨n.toNat - 1, by omega⟩
  have hcast : ((k : ℤ) + 1) = n := by
    have h0 := Int.toNat_of_nonneg (by omega : (0 : ℤ) ≤ n)
    omega
  unfold parcelasList
  simp only [hk, Nat.add_sub_cancel, List.map_map]
  rw [sum_range_succ_map _ k (roundHalfUp t n)
    (roundHalfUp t n + (t - roundHalfUp t n * n)) ?hlow ?hlast]
  case hlow =>
    intro i hi
    simp only [Function.comp_apply]
    rw [if_neg]
    rintro ⟨hik, -⟩
    omega
  case hlast =>
    simp only [Function.comp_apply]
    by_cases hd : t - roundHalfUp t n * n = 0
    · rw [if_neg (by simp [hd])]
      omega
    · rw [if_pos ⟨by trivial, hd⟩]
  have hn : (k : ℤ) = n - 1 := by omega
  rw [hn]
  ring

/-- C1: for every valid input accepted by the scheduler, the amounts of the
returned installment records sum exactly to the total amount (in cents). -/
theorem sum_invariant (d : Date) (n t : ℤ) (ps : List Parcela)
    (h : calcular_datas_parcelas d n t = Except.ok ps) :
    (ps.map (·.valor_parcela)).sum = t := by
  obtain ⟨h1, _, _, hps⟩ := calcular_ok_inv d n t ps h
  rw [hps]
  exact parcelasList_sum d n t h1

/-- Witness for C1: `schedule(2024-01-15, 1000.00, 3)` succeeds and its
amounts sum to 1000.00 (100000 cents). -/
theorem sum_invariant_witness :
    ∃ ps, calcular_datas_parcelas ⟨2024, 1, 15⟩ 3 100000 = Except.ok ps ∧
      (ps.map (·.valor_parcela)).sum = 100000 :=
  ⟨parcelasList ⟨2024, 1, 15⟩ 3 100000,
    calcular_eq_ok ⟨2024, 1, 15⟩ 3 100000 (by norm_num) (by norm_num) (by norm_num),
    sum_invariant ⟨2024, 1, 15⟩ 3 100000 _
      (calcular_eq_ok ⟨2024, 1, 15⟩ 3 100000 (by norm_num) (by norm_num) (by norm_num))⟩

/-- C2: the scheduler fails (with the `ValueError` modelling
`InvalidInstallmentPlan`) exactly when `count < 1`, `count > 48` or
`totalAmount ≤ 0`; failure yields no records at all (the result is an
`error`, not a partial list), and on every other input it succeeds. -/
theorem rejection_iff (d : Date) (n t : ℤ) :
    (∃ msg, calcular_datas_parcelas d n t = Except.error msg) ↔
      (n < 1 ∨ 48 < n ∨ t ≤ 0) := by
  unfold calcular_datas_parcelas
  split_ifs with h1 h2 h3
  · simp; omega
  · simp; omega
  · simp; omega
  · simp; omega

theorem addMonths_eq (d : Date) (i : ℕ) :
    addMonths d i =
      ⟨d.year + (d.month - 1 + i) / 12, (d.month - 1 + i) % 12 + 1,
       if d.day ≤ daysInMonth (d.year + (d.month - 1 + i) / 12)
            ((d.month - 1 + i) % 12 + 1)
         then d.day
         else daysInMonth (d.year + (d.month - 1 + i) / 12)
            ((d.month - 1 + i) % 12 + 1)⟩ := by
  simp only [addMonths, Date.mk.injEq, min_def]

/-- C3: every installment except the last carries the base amount
`round-half-up(totalAmount / count)`, the last carries the base plus the
remainder `totalAmount - base * count`; and
`schedule(2024-01-15, 1000.00, 3)` yields amounts 333.33, 333.33, 333.34. -/
theorem remainder_placement (d : Date) (n t : ℤ) (ps : List Parcela)
    (h : calcular_datas_parcelas d n t = Except.ok ps) :
    (∀ i : Fin ps.length, (i : ℕ) + 1 < ps.length →
        (ps.get i).valor_parcela = roundHalfUp t n) ∧
    ps.getLast?.map (·.valor_parcela)
        = some (roundHalfUp t n + (t - roundHalfUp t n * n)) ∧
    calcular_datas_parcelas ⟨2024, 1, 15⟩ 3 100000
        = Except.ok (parcelasList ⟨2024, 1, 15⟩ 3 100000) ∧
    (parcelasList ⟨2024, 1, 15⟩ 3 100000).map (·.valor_parcela)
        = [33333, 33333, 33334] := by
  obtain ⟨h1, -, -, hps⟩ := calcular_ok_inv d n t ps h
  subst hps
  have hlen : (parcelasList d n t).length = n.toNat := by
    unfold parcelasList; simp
  refine ⟨?g1, ?g2, ?g3, ?g4⟩
  case g1 =>
    intro i hi
    have hilt : (i : ℕ) + 1 < n.toNat := hlen ▸ hi
    simp only [List.get_eq_getElem, parcelasList, List.getElem_map,
      List.getElem_range]
    rw [if_neg]
    rintro ⟨hik, -⟩
    omega
  case g2 =>
    unfold parcelasList
    obtain ⟨k, hk⟩ : ∃ k : ℕ, n.toNat = k + 1 := ⟨n.toNat - 1, by omega⟩
    rw [hk, List.range_succ, List.map_append]
    simp only [List.map_cons, List.map_nil]
    rw [List.getLast?_concat]
    simp only [Option.map_some', Option.some.injEq, Nat.add_sub_cancel]
    by_cases hd : t - roundHalfUp t n * n = 0
    · rw [if_neg (by simp [hd])]
      omega
    · rw [if_pos ⟨by trivial, hd⟩]
  case g3 =>
    exact calcular_eq_ok ⟨2024, 1, 15⟩ 3 100000 (by norm_num) (by norm_num)
      (by norm_num)
  case g4 => decide

/-- Witness for C3: `schedule(2024-01-15, 1000.00, 3)` puts the remainder on
the last installment, whose amount is 333.34 (33334 cents). -/
theorem remainder_placement_witness :
    (parcelasList ⟨2024, 1, 15⟩ 3 100000).getLast?.map (·.valor_parcela)
      = some 33334 := by
  have h := remainder_placement ⟨2024, 1, 15⟩ 3 100000 _
    (calcular_eq_ok ⟨2024, 1, 15⟩ 3 100000 (by norm_num) (by norm_num)
      (by norm_num))
  rw [h.2.1]
  decide

/-- C4: the `i`-th installment is due exactly `i` calendar months after the
purchase date — the month index advances by exactly `i`, the day of month is
kept when the target month has it and clamped to the target month's last day
otherwise — its number is `i+1`, its count field is `count`, its status is
`pendente`; e.g. Jan 31 + 1 month is Feb 29 in 2024. -/
theorem date_spacing (d : Date) (n t : ℤ) (ps : List Parcela)
    (h : calcular_datas_parcelas d n t = Except.ok ps) :
    (∀ i : Fin ps.length,
      (ps.get i).data_vencimento =
        ⟨d.year + (d.month - 1 + (i : ℕ)) / 12,
         (d.month - 1 + (i : ℕ)) % 12 + 1,
         if d.day ≤ daysInMonth (d.year + (d.month - 1 + (i : ℕ)) / 12)
              ((d.month - 1 + (i : ℕ)) % 12 + 1)
           then d.day
           else daysInMonth (d.year + (d.month - 1 + (i : ℕ)) / 12)
              ((d.month - 1 + (i : ℕ)) % 12 + 1)⟩ ∧
      ((ps.get i).data_vencimento.year * 12
          + ((ps.get i).data_vencimento.month - 1)
        = d.year * 12 + (d.month - 1) + (i : ℕ)) ∧
      (ps.get i).numero_parcela = (i : ℕ) + 1 ∧
      (ps.get i).total_parcelas = n ∧
      (ps.get i).status_pagamento = PaymentStatus.pendente) ∧
    ps.length = n.toNat ∧
    addMonths ⟨2024, 1, 31⟩ 1 = ⟨2024, 2, 29⟩ := by
  obtain ⟨h1, -, -, hps⟩ := calcular_ok_inv d n t ps h
  subst hps
  have hlen : (parcelasList d n t).length = n.toNat := by
    unfold parcelasList; simp
  refine ⟨?g1, hlen, by decide⟩
  intro i
  have hval :
      (parcelasList d n t).get i =
        { numero_parcela := ((i : ℕ) : ℤ) + 1
          total_parcelas := n
          valor_parcela :=
            if (i : ℕ) = n.toNat - 1 ∧
                t - roundHalfUp t n * n ≠ 0 then
              roundHalfUp t n + (t - roundHalfUp t n * n)
            else roundHalfUp t n
          data_vencimento := addMonths d (i : ℕ)
          status_pagamento := PaymentStatus.pendente } := by
    simp only [List.get_eq_getElem, parcelasList, List.getElem_map,
      List.getElem_range]
  refine ⟨?date, ?idx, ?num, ?tot, ?stat⟩
  case date =>
    rw [hval]
    exact addMonths_eq d (i : ℕ)
  case idx =>
    rw [hval]
    show (addMonths d (i : ℕ)).year * 12 + ((addMonths d (i : ℕ)).month - 1)
        = d.year * 12 + (d.month - 1) + (i : ℕ)
    simp only [addMonths_eq]
    omega
  case num => rw [hval]
  case tot => rw [hval]
  case stat => rw [hval]

/-- Witness for C4: a 3-installment plan starting 2024-01-31 has 3 records
and Jan 31 + 1 month clamps to Feb 29 (2024 is a leap year). -/
theorem date_spacing_witness :
    (parcelasList ⟨2024, 1, 31⟩ 3 100000).length = (3 : ℤ).toNat ∧
    addMonths ⟨2024, 1, 31⟩ 1 = ⟨2024, 2, 29⟩ := by
  have h := date_spacing ⟨2024, 1, 31⟩ 3 100000 _
    (calcular_eq_ok ⟨2024, 1, 31⟩ 3 100000 (by norm_num) (by norm_num)
      (by norm_num))
  exact ⟨h.2.1, h.2.2⟩

/-- A stored transaction row (`models.Transaction`), restricted to the
columns the dashboard reads. -/
structure Transaction where
  id : ℤ
  user_id : ℤ
  valor_total : ℤ
  categoria : String
  tipo : TransactionType
  data_compra : Date
deriving DecidableEq, Repr

/-- A stored installment row (`models.Installment`), restricted to the
columns the dashboard reads. -/
structure Installment where
  transacao_id : ℤ
  valor_parcela : ℤ
  data_vencimento : Date
deriving DecidableEq, Repr

/-- A stored savings-goal row (`models.SavingsGoal`), restricted to the
columns the dashboard reads. -/
structure SavingsGoal where
  user_id : ℤ
  valor_atual : ℤ
  is_active : Bool
deriving DecidableEq, Repr

/-- The database tables the dashboard queries run over. -/
structure DB where
  transactions : List Transaction
  installments : List Installment
  savings_goals : List SavingsGoal

/-- `extract('month', col) == mes and extract('year', col) == ano`. -/
def inPeriod (d : Date) (mes ano : ℕ) : Bool :=
  d.month == mes && d.year == ano

/-- Income query of `get_dashboard_summary` (dashboard.py, lines 42-47). -/
def total_entradas (db : DB) (uid : ℤ) (mes ano : ℕ) : ℤ :=
  ((db.transactions.filter fun tr =>
      tr.user_id == uid && tr.tipo == TransactionType.entrada &&
        inPeriod tr.data_compra mes ano).map (·.valor_total)).sum

/-- Debit-expense query of `get_dashboard_summary` (lines 50-55). -/
def total_debito (db : DB) (uid : ℤ) (mes ano : ℕ) : ℤ :=
  ((db.transactions.filter fun tr =>
      tr.user_id == uid && tr.tipo == TransactionType.saida_debito &&
        inPeriod tr.data_compra mes ano).map (·.valor_total)).sum

/-- Rows of the SQL join `Installment ⋈ Transaction` on
`Installment.transacao_id = Transaction.id`. -/
def joinedInstallments (db : DB) : List (Installment × Transaction) :=
  db.installments.flatMap fun i =>
    (db.transactions.filter fun tr => tr.id == i.transacao_id).map
      fun tr => (i, tr)

/-- Installment query of `get_dashboard_summary` (lines 58-64): sum of
`valor_parcela` over the join, filtered by user and due-date period. -/
def total_parcelas (db : DB) (uid : ℤ) (mes ano : ℕ) : ℤ :=
  (((joinedInstallments db).filter fun r =>
      r.2.user_id == uid && inPeriod r.1.data_vencimento mes ano).map
    (fun r => r.1.valor_parcela)).sum

/-- Savings query of `get_dashboard_summary` (lines 70-73). -/
def total_guardado (db : DB) (uid : ℤ) : ℤ :=
  ((db.savings_goals.filter fun g => g.user_id == uid && g.is_active).map
    (·.valor_atual)).sum

/-- Response model `schemas.DashboardSummary` (monetary fields in cents). -/
structure DashboardSummary where
  mes : ℕ
  ano : ℕ
  total_entradas : ℤ
  total_saidas : ℤ
  total_guardado : ℤ
  saldo_disponivel : ℤ
deriving DecidableEq, Repr

/-- `get_dashboard_summary` (dashboard.py, lines 24-85). -/
def get_dashboard_summary (db : DB) (uid : ℤ) (mes ano : ℕ) :
    DashboardSummary :=
  let entradas := total_entradas db uid mes ano
  let debito := total_debito db uid mes ano
  let parcelas := total_parcelas db uid mes ano
  let saidas := debito + parcelas
  { mes := mes
    ano := ano
    total_entradas := entradas
    total_saidas := saidas
    total_guardado := total_guardado db uid
    saldo_disponivel := entradas - saidas }

/-- Computed field `DashboardSummary.variacao_percentual` (schemas.py,
lines 332-339), modelled up to its final rounding call. When
`total_entradas > 0` the code computes the exact `Decimal` rate
`(total_entradas - total_saidas) / total_entradas * 100` — held here — and
returns `round(float(rate), 2)`, a finite IEEE-754 double (hence some dyadic
rational near the rate) whose exact value is binary floating-point behaviour
not modelled in this embedding; when `total_entradas ≤ 0` it returns `None`
before any rounding, so the `none` branch is the code's exact behaviour. -/
def variacao_percentual_exata (s : DashboardSummary) : Option ℚ :=
  if 0 < s.total_entradas then
    some (((s.total_entradas : ℚ) - (s.total_saidas : ℚ)) /
      (s.total_entradas : ℚ) * 100)
  else
    none

/-- A dyadic rational. Every finite IEEE-754 double is one, so whatever
finite value Python's `round(float(x), 2)` returns, it is dyadic. -/
def IsDyadic (q : ℚ) : Prop :=
  ∃ (m : ℤ) (e : ℕ), q = (m : ℚ) / 2 ^ e

/-- One entry of the category breakdown (`schemas.CategorySummary`). -/
structure CategorySummary where
  categoria : String
  valor_total : ℤ
  percentual : ℚ
deriving DecidableEq, Repr

/-- Response model `schemas.DashboardCategorySummary`. -/
structure DashboardCategorySummary where
  mes : ℕ
  ano : ℕ
  total : ℤ
  categorias : List CategorySummary
deriving DecidableEq, Repr

/-- `dict.get(cat, 0) + total` followed by assignment on an
insertion-ordered dictionary: add `v` to the entry for `k`, appending a new
entry when `k` is absent. -/
def upsert (m : List (String × ℤ)) (k : String) (v : ℤ) : List (String × ℤ) :=
  match m with
  | [] => [(k, v)]
  | (k', v') :: rest =>
    if k' = k then (k', v' + v) :: rest else (k', v') :: upsert rest k v

/-- SQL `GROUP BY category` with `SUM`. SQL leaves the order of the
returned groups unspecified; this model lists them in first-occurrence
order of the underlying rows as one representative choice. No theorem below
depends on that choice: every statement about grouped data is either
order-independent (sums, sortedness) or evaluated on queries returning a
single group. -/
def groupSum (rows : List (String × ℤ)) : List (String × ℤ) :=
  rows.foldl (fun m r => upsert m r.1 r.2) []

/-- Rows of the debit-by-category query of `get_expenses_by_category`
(dashboard.py, lines 103-111), before grouping. -/
def debitRows (db : DB) (uid : ℤ) (mes ano : ℕ) : List (String × ℤ) :=
  (db.transactions.filter fun tr =>
      tr.user_id == uid && tr.tipo == TransactionType.saida_debito &&
        inPeriod tr.data_compra mes ano).map
    fun tr => (tr.categoria, tr.valor_total)

/-- Rows of the credit-by-category query of `get_expenses_by_category`
(lines 114-121), before grouping: installments joined to their transaction,
keyed by the transaction's category. -/
def creditRows (db : DB) (uid : ℤ) (mes ano : ℕ) : List (String × ℤ) :=
  ((joinedInstallments db).filter fun r =>
      r.2.user_id == uid && inPeriod r.1.data_vencimento mes ano).map
    fun r => (r.2.categoria, r.1.valor_parcela)

/-- The `category_totals` dictionary (lines 124-130): start empty, fold the
debit groups in, then the credit groups. -/
def category_totals (db : DB) (uid : ℤ) (mes ano : ℕ) : List (String × ℤ) :=
  (groupSum (debitRows db uid mes ano) ++ groupSum (creditRows db uid mes ano)).foldl
    (fun m r => upsert m r.1 r.2) []

/-- The `Decimal('1')` sentinel of line 133 is one monetary unit,
i.e. 100 cents. -/
def oneUnit : ℤ := 100

/-- Stable insertion of `x` into a list sorted by amount descending: `x` goes
before the first entry whose amount is `≤` its own, so among equal amounts
earlier input entries stay first — the order `sorted(items, key=amount,
reverse=True)` produces, since Python's sort is stable. -/
def insertDesc (x : String × ℤ) : List (String × ℤ) → List (String × ℤ)
  | [] => [x]
  | y :: ys => if y.2 ≤ x.2 then x :: y :: ys else y :: insertDesc x ys

/-- Stable sort by amount descending (`sorted(category_totals.items(),
key=lambda x: x[1], reverse=True)`). -/
def sortDesc (l : List (String × ℤ)) : List (String × ℤ) :=
  l.foldr insertDesc []

/-- `get_expenses_by_category` (dashboard.py, lines 88-150). The
`percentual` field carries the exact ratio `valor / grand_total * 100`; the
code's final `round(percentual, 2)` call on the `float` division result is
binary floating-point behaviour not modelled here, and no claim concerns
this field's value. -/
def get_expenses_by_category (db : DB) (uid : ℤ) (mes ano : ℕ) :
    DashboardCategorySummary :=
  let ct := category_totals db uid mes ano
  let s := (ct.map (·.2)).sum
  let grand_total := if s = 0 then oneUnit else s
  let categorias := (sortDesc ct).map fun r =>
    { categoria := r.1
      valor_total := r.2
      percentual := (r.2 : ℚ) / (grand_total : ℚ) * 100 }
  { mes := mes
    ano := ano
    total := if grand_total ≠ oneUnit then grand_total else 0
    categorias := categorias }

theorem flatMap_congr_mem {α β : Type} {l : List α} {f g : α → List β}
    (h : ∀ a ∈ l, f a = g a) : l.flatMap f = l.flatMap g := by
  induction l with
  | nil => rfl
  | cons x xs ih =>
    simp only [List.flatMap_cons]
    rw [h x (List.mem_cons_self x xs), ih (fun a ha => h a (List.mem_cons_of_mem x ha))]

theorem joinedInstallments_extend (db : DB) (t0 : Transaction)
    (i0 : Installment) (gs : List SavingsGoal)
    (hlink : i0.transacao_id = t0.id)
    (hfresh1 : ∀ tr ∈ db.transactions, tr.id ≠ t0.id)
    (hfresh2 : ∀ j ∈ db.installments, j.transacao_id ≠ t0.id) :
    joinedInstallments
        ⟨db.transactions ++ [t0], db.installments ++ [i0], gs⟩
      = joinedInstallments db ++ [(i0, t0)] := by
  unfold joinedInstallments
  simp only [List.flatMap_append, List.flatMap_cons, List.flatMap_nil,
    List.append_nil]
  congr 1
  · apply flatMap_congr_mem
    intro j hj
    congr 1
    rw [List.filter_append]
    have : (List.filter (fun tr => tr.id == j.transacao_id) [t0]) = [] := by
      simp only [List.filter_eq_nil_iff, List.mem_singleton]
      rintro a rfl
      simp only [beq_iff_eq]
      exact fun hc => hfresh2 j hj (hc ▸ rfl)
    rw [this, List.append_nil]
  · rw [List.filter_append]
    have h1 : (List.filter (fun tr => tr.id == i0.transacao_id)
        db.transactions) = [] := by
      simp only [List.filter_eq_nil_iff]
      intro a ha
      simp only [beq_iff_eq, hlink]
      exact hfresh1 a ha
    have h2 : (List.filter (fun tr => tr.id == i0.transacao_id) [t0])
        = [t0] := by
      simp [hlink]
    rw [h1, h2]
    simp

theorem total_debito_extend (db : DB) (t0 : Transaction) (i0 : Installment)
    (gs : List SavingsGoal) (uid : ℤ) (m y : ℕ)
    (htipo : t0.tipo = TransactionType.saida_credito) :
    total_debito ⟨db.transactions ++ [t0], db.installments ++ [i0], gs⟩ uid m y
      = total_debito db uid m y := by
  unfold total_debito
  simp [List.filter_append, htipo]

theorem total_parcelas_extend (db : DB) (t0 : Transaction) (i0 : Installment)
    (gs : List SavingsGoal) (uid : ℤ) (m y : ℕ)
    (huser : t0.user_id = uid)
    (hlink : i0.transacao_id = t0.id)
    (hfresh1 : ∀ tr ∈ db.transactions, tr.id ≠ t0.id)
    (hfresh2 : ∀ j ∈ db.installments, j.transacao_id ≠ t0.id) :
    total_parcelas ⟨db.transactions ++ [t0], db.installments ++ [i0], gs⟩
        uid m y
      = total_parcelas db uid m y
        + (if inPeriod i0.data_vencimento m y then i0.valor_parcela else 0) := by
  unfold total_parcelas
  rw [joinedInstallments_extend db t0 i0 gs hlink hfresh1 hfresh2]
  rw [List.filter_append, List.map_append, List.sum_append]
  congr 1
  by_cases hdue : inPeriod i0.data_vencimento m y
  · simp [huser, hdue]
  · simp [huser, hdue]

/-- C5: expenses attribute installments to the month of their own due date:
appending a fresh credit transaction purchased in period `(m1, y1)` together
with one of its installments due in a different period `(m2, y2)` leaves
`total_saidas` at `(m1, y1)` unchanged and raises `total_saidas` at
`(m2, y2)` by exactly the installment's amount; and every summary's
`total_saidas` is the debit total plus the installment total. -/
theorem cross_period_attribution (db : DB) (uid : ℤ) (t0 : Transaction)
    (i0 : Installment) (m1 y1 m2 y2 : ℕ)
    (htipo : t0.tipo = TransactionType.saida_credito)
    (huser : t0.user_id = uid)
    (_hpd : inPeriod t0.data_compra m1 y1 = true)
    (hdue : inPeriod i0.data_vencimento m2 y2 = true)
    (hnot : inPeriod i0.data_vencimento m1 y1 = false)
    (hlink : i0.transacao_id = t0.id)
    (hfresh1 : ∀ tr ∈ db.transactions, tr.id ≠ t0.id)
    (hfresh2 : ∀ j ∈ db.installments, j.transacao_id ≠ t0.id) :
    (get_dashboard_summary
        ⟨db.transactions ++ [t0], db.installments ++ [i0], db.savings_goals⟩
        uid m1 y1).total_saidas
      = (get_dashboard_summary db uid m1 y1).total_saidas ∧
    (get_dashboard_summary
        ⟨db.transactions ++ [t0], db.installments ++ [i0], db.savings_goals⟩
        uid m2 y2).total_saidas
      = (get_dashboard_summary db uid m2 y2).total_saidas + i0.valor_parcela ∧
    (∀ (db₀ : DB) (u : ℤ) (m y : ℕ),
      (get_dashboard_summary db₀ u m y).total_saidas
        = total_debito db₀ u m y + total_parcelas db₀ u m y) := by
  refine ⟨?unchanged, ?charged, fun _ _ _ _ => rfl⟩
  case unchanged =>
    show total_debito _ uid m1 y1 + total_parcelas _ uid m1 y1
        = total_debito db uid m1 y1 + total_parcelas db uid m1 y1
    rw [total_debito_extend db t0 i0 db.savings_goals uid m1 y1 htipo,
      total_parcelas_extend db t0 i0 db.savings_goals uid m1 y1 huser hlink
        hfresh1 hfresh2, hnot]
    simp
  case charged =>
    show total_debito _ uid m2 y2 + total_parcelas _ uid m2 y2
        = total_debito db uid m2 y2 + total_parcelas db uid m2 y2
          + i0.valor_parcela
    rw [total_debito_extend db t0 i0 db.savings_goals uid m2 y2 htipo,
      total_parcelas_extend db t0 i0 db.savings_goals uid m2 y2 huser hlink
        hfresh1 hfresh2, hdue]
    simp [add_assoc]

/-- A credit transaction purchased 2024-01-15 (R$ 1000.00). -/
def txJan : Transaction :=
  ⟨1, 7, 100000, "Mercado", TransactionType.saida_credito, ⟨2024, 1, 15⟩⟩

/-- An installment of `txJan` due 2024-02-15 (R$ 500.00). -/
def instFeb : Installment := ⟨1, 50000, ⟨2024, 2, 15⟩⟩

/-- Witness for C5: against an empty database, the January summary charges
nothing for the credit purchase while February is charged the installment. -/
theorem cross_period_attribution_witness :
    (get_dashboard_summary ⟨[] ++ [txJan], [] ++ [instFeb], []⟩ 7 1 2024).total_saidas = 0 ∧
    (get_dashboard_summary ⟨[] ++ [txJan], [] ++ [instFeb], []⟩ 7 2 2024).total_saidas = 50000 := by
  have h := cross_period_attribution ⟨[], [], []⟩ 7 txJan instFeb 1 2024 2 2024
    rfl rfl (by decide) (by decide) (by decide) rfl
    (by intro tr htr; cases htr) (by intro j hj; cases hj)
  refine ⟨?w1, ?w2⟩
  case w1 =>
    rw [h.1]
    decide
  case w2 =>
    rw [h.2.1]
    decide

/-- C8: every computed summary satisfies
`saldo_disponivel = total_entradas - total_saidas`, whatever the stored
transactions, installments, savings goals and requested period are. -/
theorem balance_identity (db : DB) (uid : ℤ) (mes ano : ℕ) :
    (get_dashboard_summary db uid mes ano).saldo_disponivel
      = (get_dashboard_summary db uid mes ano).total_entradas
        - (get_dashboard_summary db uid mes ano).total_saidas := rfl

theorem upsert_values_sum (m : List (String × ℤ)) (k : String) (v : ℤ) :
    ((upsert m k v).map (·.2)).sum = (m.map (·.2)).sum + v := by
  induction m with
  | nil => simp [upsert]
  | cons x xs ih =>
    obtain ⟨k', v'⟩ := x
    unfold upsert
    by_cases hx : k' = k
    · rw [if_pos hx]
      simp only [List.map_cons, List.sum_cons]
      ring
    · rw [if_neg hx]
      simp only [List.map_cons, List.sum_cons, ih]
      ring

theorem foldl_upsert_values_sum (rows : List (String × ℤ)) :
    ∀ m : List (String × ℤ),
      ((rows.foldl (fun acc r => upsert acc r.1 r.2) m).map (·.2)).sum
        = (m.map (·.2)).sum + (rows.map (·.2)).sum := by
  induction rows with
  | nil => intro m; simp
  | cons r rs ih =>
    intro m
    simp only [List.foldl_cons, List.map_cons, List.sum_cons]
    rw [ih (upsert m r.1 r.2), upsert_values_sum]
    ring

theorem groupSum_values_sum (rows : List (String × ℤ)) :
    ((groupSum rows).map (·.2)).sum = (rows.map (·.2)).sum := by
  unfold groupSum
  rw [foldl_upsert_values_sum rows []]
  simp

theorem category_totals_values_sum (db : DB) (uid : ℤ) (mes ano : ℕ) :
    ((category_totals db uid mes ano).map (·.2)).sum
      = total_debito db uid mes ano + total_parcelas db uid mes ano := by
  unfold category_totals
  rw [foldl_upsert_values_sum _ []]
  simp only [List.map_nil, List.sum_nil, List.map_append, List.sum_append,
    zero_add]
  rw [groupSum_values_sum, groupSum_values_sum]
  congr 1
  · unfold debitRows total_debito
    rw [List.map_map]
    rfl
  · unfold creditRows total_parcelas
    rw [List.map_map]
    rfl

theorem insertDesc_perm (x : String × ℤ) (l : List (String × ℤ)) :
    List.Perm (insertDesc x l) (x :: l) := by
  induction l with
  | nil => exact List.Perm.refl _
  | cons y ys ih =>
    unfold insertDesc
    by_cases h : y.2 ≤ x.2
    · rw [if_pos h]
    · rw [if_neg h]
      exact (List.Perm.cons y ih).trans (List.Perm.swap x y ys)

theorem sortDesc_perm (l : List (String × ℤ)) : List.Perm (sortDesc l) l := by
  induction l with
  | nil => exact List.Perm.refl _
  | cons x xs ih =>
    unfold sortDesc
    simp only [List.foldr_cons]
    exact (insertDesc_perm x _).trans (List.Perm.cons x ih)

theorem breakdown_values (db : DB) (uid : ℤ) (mes ano : ℕ) :
    ((get_expenses_by_category db uid mes ano).categorias).map (·.valor_total)
      = (sortDesc (category_totals db uid mes ano)).map (·.2) := by
  simp only [get_expenses_by_category, List.map_map]
  rfl

/-- C6: the per-category amounts of the breakdown sum to exactly the
`total_saidas` of the summary for the same user and period. -/
theorem breakdown_completeness (db : DB) (uid : ℤ) (mes ano : ℕ) :
    (((get_expenses_by_category db uid mes ano).categorias).map
        (·.valor_total)).sum
      = (get_dashboard_summary db uid mes ano).total_saidas := by
  show _ = total_debito db uid mes ano + total_parcelas db uid mes ano
  rw [breakdown_values db uid mes ano,
    ((sortDesc_perm (category_totals db uid mes ano)).map
      (fun r : String × ℤ => r.2)).sum_eq,
    category_totals_values_sum]

theorem insertDesc_mem {z x : String × ℤ} {l : List (String × ℤ)}
    (h : z ∈ insertDesc x l) : z = x ∨ z ∈ l := by
  have := (insertDesc_perm x l).mem_iff.mp h
  simpa using this

theorem insertDesc_sorted (x : String × ℤ) (l : List (String × ℤ))
    (h : l.Pairwise (fun a b => b.2 ≤ a.2)) :
    (insertDesc x l).Pairwise (fun a b => b.2 ≤ a.2) := by
  induction l with
  | nil => simp [insertDesc]
  | cons y ys ih =>
    rw [List.pairwise_cons] at h
    unfold insertDesc
    by_cases hle : y.2 ≤ x.2
    · rw [if_pos hle]
      refine List.Pairwise.cons ?_ (List.Pairwise.cons h.1 h.2)
      intro z hz
      rcases List.mem_cons.mp hz with rfl | hz
      · exact hle
      · exact le_trans (h.1 z hz) hle
    · rw [if_neg hle]
      refine List.Pairwise.cons ?_ (ih h.2)
      intro z hz
      rcases insertDesc_mem hz with rfl | hz
      · exact le_of_lt (lt_of_not_le hle)
      · exact h.1 z hz

theorem sortDesc_sorted (l : List (String × ℤ)) :
    (sortDesc l).Pairwise (fun a b => b.2 ≤ a.2) := by
  induction l with
  | nil => simp [sortDesc]
  | cons x xs ih =>
    unfold sortDesc
    simp only [List.foldr_cons]
    exact insertDesc_sorted x _ ih

/-- A debit purchase in category "b" and a credit purchase in category "a"
with one installment, all for user 7 with the expense due in January 2024,
amounts tied at R$ 5.00. Each category query returns a single group, so the
tie order below is independent of the backend's GROUP BY ordering. -/
def dbTie : DB :=
  ⟨[⟨1, 7, 500, "b", TransactionType.saida_debito, ⟨2024, 1, 10⟩⟩,
    ⟨2, 7, 500, "a", TransactionType.saida_credito, ⟨2024, 1, 12⟩⟩],
   [⟨2, 500, ⟨2024, 1, 20⟩⟩], []⟩

/-- Counterexample to C7: with category "b" tied at 5.00 from the debit
query and category "a" tied at 5.00 from the credit query, the breakdown
lists "b" before "a". The code folds the debit groups into
`category_totals` before the credit groups (dashboard.py, lines 124-130),
so "b" enters the dictionary first whatever order each GROUP BY returns its
single group in, and Python's stable `sorted(..., reverse=True)` keeps that
order on ties — there is no category-name-ascending tie-break. -/
theorem breakdown_tie_counterexample :
    ((get_expenses_by_category dbTie 7 1 2024).categorias.map
        fun c => (c.categoria, c.valor_total))
      = [("b", 500), ("a", 500)] ∧
    ("a" : String) < "b" := by
  constructor
  · decide
  · rw [String.lt_iff_toList_lt]
    decide

/-- C7 amended: the category breakdown is ordered by amount descending; no
category-name tie-break is applied — categories with equal amounts appear
in the construction order of the category map (categories from the debit
query are inserted before categories appearing only in the credit query;
the order among a single query's groups is backend-determined), so a tie
can surface in name-descending order. -/
theorem breakdown_sorted_desc (db : DB) (uid : ℤ) (mes ano : ℕ) :
    ((get_expenses_by_category db uid mes ano).categorias).Pairwise
      (fun a b => b.valor_total ≤ a.valor_total) := by
  exact List.Pairwise.map _ (fun a b h => h)
    (sortDesc_sorted (category_totals db uid mes ano))


/-- A summary with income R$ 3.00 and expenses R$ 1.00. -/
def sThird : DashboardSummary := ⟨1, 2024, 300, 100, 0, 200⟩

/-- Counterexample to C9: with income 3.00 and expenses 1.00 the rate the
code feeds into its final `round(float(rate), 2)` call is exactly 200/3.
That call returns a finite IEEE-754 double — a dyadic rational — and no
dyadic rational equals 200/3 (nor does any two-decimal value `m/100`), so
whatever the rounding returns, the reported rate is not the claim's exact
`(totalIncome - totalExpense) / totalIncome * 100`. -/
theorem savings_rate_counterexample :
    variacao_percentual_exata sThird = some (200 / 3 : ℚ) ∧
    ¬ IsDyadic (200 / 3 : ℚ) ∧
    ∀ m : ℤ, ((m : ℚ) / 100) ≠ (200 / 3 : ℚ) := by
  refine ⟨?value, ?dyadic, ?cents⟩
  case value =>
    unfold variacao_percentual_exata
    rw [if_pos (show (0 : ℤ) < sThird.total_entradas by norm_num [sThird])]
    norm_num [sThird]
  case dyadic =>
    rintro ⟨m, e, hme⟩
    have hcross : (m : ℚ) * 3 = 200 * 2 ^ e := by
      field_simp at hme
      linarith
    have hint : m * 3 = 200 * 2 ^ e := by exact_mod_cast hcross
    have hdvd : (3 : ℤ) ∣ 200 * 2 ^ e := ⟨m, by linarith⟩
    rcases (Int.prime_three.dvd_mul).mp hdvd with h200 | hpow
    · norm_num at h200
    · have h2 : (3 : ℤ) ∣ 2 := Int.prime_three.dvd_of_dvd_pow hpow
      norm_num at h2
  case cents =>
    intro m hm
    have hcross : (m : ℚ) * 3 = 20000 := by
      field_simp at hm
      linarith
    have hint : m * 3 = 20000 := by exact_mod_cast hcross
    omega

/-- C9 amended: when `totalIncome = 0` the savings rate is `None` — the
code returns it before any rounding — absent rather than 0 or NaN, hence
distinguishable from a real 0% rate; when `totalIncome > 0` the code
reports `round(float(rate), 2)`, a floating-point approximation of the
exact rate `(totalIncome - totalExpense) / totalIncome * 100` computed
here, not that exact value itself. -/
theorem savings_rate_cases (s : DashboardSummary) :
    (s.total_entradas = 0 →
      variacao_percentual_exata s = none ∧
      ∀ q : ℚ, variacao_percentual_exata s ≠ some q) ∧
    (0 < s.total_entradas →
      variacao_percentual_exata s
        = some (((s.total_entradas : ℚ) - (s.total_saidas : ℚ)) /
            (s.total_entradas : ℚ) * 100)) := by
  constructor
  · intro hzero
    unfold variacao_percentual_exata
    rw [if_neg (by omega)]
    exact ⟨rfl, fun q => by simp⟩
  · intro hpos
    unfold variacao_percentual_exata
    rw [if_pos hpos]

/-- Witness for C9 (amended): a summary with zero income has an absent
(`None`) savings rate — in particular not `some 0` — and one with income
2.00 and expenses 1.00 carries the exact rate 50 into the rounding call. -/
theorem savings_rate_cases_witness :
    (variacao_percentual_exata ⟨1, 2024, 0, 500, 0, -500⟩ = none ∧
      variacao_percentual_exata ⟨1, 2024, 0, 500, 0, -500⟩ ≠ some 0) ∧
    variacao_percentual_exata ⟨1, 2024, 200, 100, 0, 100⟩ = some 50 :=
  ⟨⟨((savings_rate_cases ⟨1, 2024, 0, 500, 0, -500⟩).1 rfl).1,
    ((savings_rate_cases ⟨1, 2024, 0, 500, 0, -500⟩).1 rfl).2 0⟩,
   ((savings_rate_cases ⟨1, 2024, 200, 100, 0, 100⟩).2 (by norm_num)).trans
     (by norm_num)⟩

/-- C10: when the per-category sums total exactly one monetary unit
(`Decimal('1.00')`, i.e. 100 cents) the reported `total` is 0 even though
the category list is non-empty, because the division-by-zero sentinel
`Decimal('1')` is indistinguishable from a genuine grand total of 1; for
every other grand total the reported `total` equals the sum of the
category amounts. -/
theorem sentinel_total (db : DB) (uid : ℤ) (mes ano : ℕ) :
    (((category_totals db uid mes ano).map (·.2)).sum = oneUnit →
      (get_expenses_by_category db uid mes ano).total = 0 ∧
      (get_expenses_by_category db uid mes ano).categorias ≠ []) ∧
    (((category_totals db uid mes ano).map (·.2)).sum ≠ oneUnit →
      (get_expenses_by_category db uid mes ano).total
        = ((category_totals db uid mes ano).map (·.2)).sum) := by
  constructor
  · intro hone
    constructor
    · show (if (if ((category_totals db uid mes ano).map (·.2)).sum = 0 then
            oneUnit
          else ((category_totals db uid mes ano).map (·.2)).sum) ≠ oneUnit
        then _ else (0 : ℤ)) = 0
      rw [hone]
      simp [oneUnit]
    · have hne : category_totals db uid mes ano ≠ [] := by
        intro hnil
        rw [hnil] at hone
        simp [oneUnit] at hone
      show (sortDesc (category_totals db uid mes ano)).map _ ≠ []
      intro hnil
      have hlen := congrArg List.length hnil
      rw [List.length_map,
        (sortDesc_perm (category_totals db uid mes ano)).length_eq] at hlen
      exact hne (List.eq_nil_of_length_eq_zero hlen)
  · intro hne
    by_cases hzero : ((category_totals db uid mes ano).map (·.2)).sum = 0
    · show (if (if ((category_totals db uid mes ano).map (·.2)).sum = 0 then
            oneUnit
          else ((category_totals db uid mes ano).map (·.2)).sum) ≠ oneUnit
        then _ else (0 : ℤ)) = _
      rw [if_pos hzero, hzero]
      simp [oneUnit]
    · show (if (if ((category_totals db uid mes ano).map (·.2)).sum = 0 then
            oneUnit
          else ((category_totals db uid mes ano).map (·.2)).sum) ≠ oneUnit
        then _ else (0 : ℤ)) = _
      rw [if_neg hzero, if_pos hne]

/-- One debit transaction of user 7 in January 2024 for exactly R$ 1.00. -/
def dbOneReal : DB :=
  ⟨[⟨1, 7, 100, "Cafe", TransactionType.saida_debito, ⟨2024, 1, 5⟩⟩], [], []⟩

/-- Witness for C10: with a single R$ 1.00 debit expense, the breakdown
reports `total = 0` while its category list is non-empty. -/
theorem sentinel_total_witness :
    (get_expenses_by_category dbOneReal 7 1 2024).total = 0 ∧
    (get_expenses_by_category dbOneReal 7 1 2024).categorias ≠ [] :=
  (sentinel_total dbOneReal 7 1 2024).1 (by decide)


end FinanceApp
